import Mathlib

/- Shallow embedding of the odin-ToDo task manager: the Task and Project
entity models (src/modules/models), the validation utilities
(src/modules/utils/Validation.js), the task and project services
(src/modules/services/TaskService.js, ProjectService.js) and the
storage-resilience layer (src/modules/services/StorageService.js).

Modelling conventions:
- JavaScript primitive values appearing in loosely typed records are
  modelled by the inductive JSPrim below; numbers are modelled as exact
  integers (the application only ever stores integer counts and
  millisecond timestamps).
- Date objects carry a millisecond timestamp (an Int).  The ISO-8601
  rendering produced by Date.toISOString and parsed back by the Date
  constructor is modelled by an executable injective codec
  (isoString / parseDateStr): the concrete digit grammar is irrelevant
  to every claim, only that rendering a timestamp and parsing the
  rendering gives the timestamp back, which is true of the real codec
  on the valid instants this application produces.
- Code that throws is modelled with Except String; code that mutates an
  object in place and can throw midway is modelled by returning the
  final object state next to the Except result.
-/

/-- Model of a JavaScript primitive value as it appears in the loosely
typed records this application passes around.  A date carries its
millisecond timestamp. -/
inductive JSPrim where
  | null
  | undef
  | bool (b : Bool)
  | num (n : Int)
  | str (s : String)
  | date (t : Int)
deriving DecidableEq, Repr

/-- JavaScript truthiness for the modelled primitive values. -/
def jsTruthy : JSPrim → Bool
  | .null => false
  | .undef => false
  | .bool b => b
  | .num n => n != 0
  | .str s => s != ""
  | .date _ => true

/-- Model of the JavaScript expression a || b for the modelled values. -/
def jsOr (a b : JSPrim) : JSPrim := if jsTruthy a then a else b

/-- The string payload of a primitive (used only where the code has
already checked typeof x === "string"). -/
def strOf : JSPrim → String
  | .str s => s
  | _ => ""

/-- The numeric payload of a primitive (used only where the code has
already checked typeof x === "number"). -/
def intOf : JSPrim → Int
  | .num n => n
  | _ => 0

/-- Executable model of Date.toISOString: an injective rendering of a
millisecond timestamp as a string.  The sign is the first character and
the magnitude is rendered in unary so that the inverse is provable
without a verified decimal printer; every claim only needs that the
rendering is invertible and non-empty, which holds of the real
ISO-8601 codec on valid instants. -/
def isoString (t : Int) : String :=
  if t < 0 then String.mk ('n' :: List.replicate t.natAbs 'i')
  else String.mk ('p' :: List.replicate t.natAbs 'i')

/-- Executable model of parsing a date string (new Date(s) on an
ISO-8601 string): inverts isoString and fails on any other string. -/
def parseDateStr (s : String) : Option Int :=
  match s.data with
  | 'p' :: rest => if rest.all (· = 'i') then some (rest.length : Int) else none
  | 'n' :: rest => if rest.all (· = 'i') then some (-(rest.length : Int)) else none
  | _ => none

/-- Model of new Date(x): a Date keeps its timestamp, a string is
parsed (an unparseable string stands for an Invalid Date, modelled as
timestamp 0 — never hit on validated paths), a number is taken as a
millisecond timestamp. -/
def dateFrom : JSPrim → Int
  | .date t => t
  | .str s => (parseDateStr s).getD 0
  | .num n => n
  | _ => 0

/-- Model of JavaScript String.prototype.trim: drop leading and
trailing whitespace.  Written by structural recursion over the
character list so that concrete instances evaluate inside the kernel
(the core String.trim is extensionally the same but is defined by
well-founded recursion). -/
def jsTrim (s : String) : String :=
  String.mk (((s.data.dropWhile Char.isWhitespace).reverse.dropWhile
    Char.isWhitespace).reverse)

/-- Model of JavaScript String.prototype.toLowerCase on the ASCII
range: lower every character. -/
def jsToLower (s : String) : String := String.mk (s.data.map Char.toLower)

/-- Structural prefix test on character lists. -/
def startsList : List Char → List Char → Bool
  | [], _ => true
  | _ :: _, [] => false
  | p :: ps, c :: cs => p == c && startsList ps cs

/-- Model of JavaScript String.prototype.startsWith. -/
def strStartsWith (s p : String) : Bool := startsList p.data s.data

/-! ## Validation utilities (src/modules/utils/Validation.js) -/

/-- The list of valid priorities, shared by Task and Validation
(validPriorities in Task.js line 26 and Validation.js line 81). -/
def validPriorities : List String := ["high", "medium", "low"]

/-- Result record returned by the field validators in Validation.js:
{valid, error, value}. -/
structure ValidationResult where
  valid : Bool
  error : Option String
  value : String
deriving DecidableEq, Repr

/-- The guard on Validation.js line 84: !priority || typeof priority
!== "string" (the value is missing, falsy, or not a string). -/
def priorityMissing (v : JSPrim) : Bool :=
  !jsTruthy v ||
    (match v with
     | .str _ => false
     | _ => true)

/-- Validation.validatePriority (Validation.js lines 80-107). -/
def validatePriority (priority : JSPrim) : ValidationResult :=
  if priorityMissing priority then
    { valid := true, error := none, value := "medium" }
  else
    let normalized := jsTrim (jsToLower (strOf priority))
    if !validPriorities.contains normalized then
      { valid := false,
        error := some "Priority must be one of: high, medium, low",
        value := "medium" }
    else
      { valid := true, error := none, value := normalized }

/-- The priority slice of Validation.validateTaskData (Validation.js
lines 247-252): the error strings this field contributes to the errors
array, and the value stored into validatedData.priority. -/
def taskDataPriorityStep (priority : JSPrim) : List String × String :=
  let v := validatePriority priority
  ((if v.valid then [] else v.error.toList), v.value)

/-! ## Project model (src/modules/models/Project.js) -/

/-- A constructed Project instance.  The id keeps its JavaScript value
(id || uuidv4() can propagate any truthy value); name is a trimmed
string; createdAt is a timestamp; taskCount a number. -/
structure Project where
  id : JSPrim
  name : String
  createdAt : Int
  taskCount : Int
deriving DecidableEq, Repr

/-- Input record of the Project constructor, with the destructuring
defaults of Project.js lines 7-12 (a missing field is undefined and
picks up its default before validation). -/
structure ProjectData where
  id : JSPrim := .null
  name : JSPrim := .undef
  createdAt : JSPrim := .null
  taskCount : JSPrim := .num 0
deriving DecidableEq, Repr

/-- The name check of Project.js line 14 (also reused by update):
passes iff the value is a truthy string whose trim is non-empty. -/
def projectNameOk (v : JSPrim) : Bool :=
  match v with
  | .str s => jsTruthy (.str s) && jsTrim s != ""
  | _ => false

/-- The task-count check of Project.js line 19 (also in setTaskCount
and update): passes iff the value is a non-negative number. -/
def taskCountOk (v : JSPrim) : Bool :=
  match v with
  | .num n => decide (0 ≤ n)
  | _ => false

/-- The Project constructor (Project.js lines 7-28).  freshId models
the uuidv4() call used when no truthy id is supplied; now models the
current time used when no createdAt is supplied. -/
def mkProject (d : ProjectData) (freshId : String) (now : Int) : Except String Project :=
  if !projectNameOk d.name then
    .error "Project name is required and must be a non-empty string"
  else if !taskCountOk d.taskCount then
    .error "Task count must be a non-negative number"
  else
    .ok { id := jsOr d.id (.str freshId),
          name := jsTrim (strOf d.name),
          createdAt := if jsTruthy d.createdAt then dateFrom d.createdAt else now,
          taskCount := intOf d.taskCount }

/-- The updates record accepted by Project.update; none models an
absent (undefined) field, matching the !== undefined guards. -/
structure ProjectUpdates where
  name : Option JSPrim := none
  taskCount : Option JSPrim := none
deriving DecidableEq, Repr

/-- Project.update (Project.js lines 33-49).  The source mutates the
instance field by field, validating each field just before assigning
it; the returned Project is the state of the instance when the call
finishes or throws, so a throw on the second field keeps the mutation
of the first. -/
def Project.update (p : Project) (u : ProjectUpdates) : Except String Unit × Project :=
  let afterName : Except String Unit × Project :=
    match u.name with
    | some nv =>
      if !projectNameOk nv then
        (.error "Project name is required and must be a non-empty string", p)
      else
        (.ok (), { p with name := jsTrim (strOf nv) })
    | none => (.ok (), p)
  match afterName with
  | (.error e, q) => (.error e, q)
  | (.ok _, q) =>
    match u.taskCount with
    | some cv =>
      if !taskCountOk cv then
        (.error "Task count must be a non-negative number", q)
      else
        (.ok (), { q with taskCount := intOf cv })
    | none => (.ok (), q)

/-- Project.incrementTaskCount (Project.js lines 54-57). -/
def Project.incrementTaskCount (p : Project) : Project :=
  { p with taskCount := p.taskCount + 1 }

/-- Project.decrementTaskCount (Project.js lines 62-67): decrements
only when the count is positive. -/
def Project.decrementTaskCount (p : Project) : Project :=
  if p.taskCount > 0 then { p with taskCount := p.taskCount - 1 } else p

/-- Project.setTaskCount (Project.js lines 72-78). -/
def Project.setTaskCount (p : Project) (count : JSPrim) : Except String Project :=
  if !taskCountOk count then
    .error "Task count must be a non-negative number"
  else
    .ok { p with taskCount := intOf count }

/-! ## ProjectService.deleteProject (src/modules/services/ProjectService.js) -/

/-- ProjectService.deleteProject (ProjectService.js lines 97-126) on
the in-memory project collection.  Both error branches fire before the
splice, so they return the collection untouched; the success branch
removes the found project.  (Persisting the updated collection through
the storage layer, which happens after the splice, cannot be reached
from the branches any claim is about and is not modelled here.) -/
def deleteProject (projects : List Project) (projectId : String) :
    Except String Project × List Project :=
  if projectId = "" then
    (.error "Project ID is required", projects)
  else if projectId = "default" then
    (.error "Cannot delete the default project", projects)
  else
    match h : projects.findIdx? (fun p => p.id == .str projectId) with
    | none => (.error "Project not found", projects)
    | some i => (.ok (projects.get ⟨i, (List.findIdx?_eq_some_iff_findIdx_eq.mp h).1⟩),
                 projects.eraseIdx i)

/-! ## Task model (src/modules/models/Task.js) -/

/-- A raw checklist entry of an input record (the items of the
checklist array passed to the Task constructor).  The constructor also
rejects entries that are not objects at all; all modelled entries are
objects, and the text / completed checks below cover every remaining
rejection. -/
structure ChecklistItemData where
  id : JSPrim := .undef
  text : JSPrim := .undef
  completed : JSPrim := .undef
deriving DecidableEq, Repr

/-- The checklist slot of an input record: an array of entries, or any
non-array value (which the constructor rejects after defaulting). -/
inductive ChecklistField where
  | arr (items : List ChecklistItemData)
  | other (v : JSPrim)
deriving DecidableEq, Repr

/-- Input record of the Task constructor, keyed exactly like the
destructuring pattern of Task.js lines 7-19; defaults model an absent
property (undefined). -/
structure TaskData where
  id : JSPrim := .null
  title : JSPrim := .undef
  description : JSPrim := .undef
  dueDate : JSPrim := .undef
  priority : JSPrim := .undef
  notes : JSPrim := .undef
  checklist : ChecklistField := .other .undef
  completed : JSPrim := .undef
  projectId : JSPrim := .undef
  createdAt : JSPrim := .undef
  updatedAt : JSPrim := .undef
deriving DecidableEq, Repr

/-- Destructuring defaulting: an undefined value picks up the default
of the pattern, any other value is kept. -/
def defUndef (v d : JSPrim) : JSPrim := if v = .undef then d else v

/-- The destructuring defaults of Task.js lines 7-19 applied to an
input record (title has no default and stays undefined). -/
def TaskData.norm (d : TaskData) : TaskData :=
  { id := defUndef d.id .null,
    title := d.title,
    description := defUndef d.description (.str ""),
    dueDate := defUndef d.dueDate .null,
    priority := defUndef d.priority (.str "medium"),
    notes := defUndef d.notes (.str ""),
    checklist := match d.checklist with
      | .other .undef => .arr []
      | c => c,
    completed := defUndef d.completed (.bool false),
    projectId := defUndef d.projectId (.str "default"),
    createdAt := defUndef d.createdAt .null,
    updatedAt := defUndef d.updatedAt .null }

/-- The title check of Task.js line 21: !title || typeof title !==
"string" || title.trim() === "". -/
def titleOk (v : JSPrim) : Bool :=
  match v with
  | .str s => jsTruthy (.str s) && jsTrim s != ""
  | _ => false

/-- The priority check of Task.js line 27: validPriorities.includes
(priority), a strict-equality membership test. -/
def priorityIncluded (v : JSPrim) : Bool :=
  match v with
  | .str s => validPriorities.contains s
  | _ => false

/-- The due-date check of Task.js line 32: null, a Date, or a string. -/
def dueDateOk (v : JSPrim) : Bool :=
  match v with
  | .null => true
  | .date _ => true
  | .str _ => true
  | _ => false

/-- The per-item text check of Task.js line 46: !item.text || typeof
item.text !== "string". -/
def itemTextOk (v : JSPrim) : Bool :=
  match v with
  | .str s => s != ""
  | _ => false

/-- The per-item completed check of Task.js line 49: typeof
item.completed !== "boolean". -/
def itemCompletedOk (v : JSPrim) : Bool :=
  match v with
  | .bool _ => true
  | _ => false

/-- The checklist.forEach validation loop of Task.js lines 42-52,
throwing at the first offending item with its index in the message. -/
def validateItems (i : Nat) : List ChecklistItemData → Except String Unit
  | [] => .ok ()
  | item :: rest =>
    if !itemTextOk item.text then
      .error ("Checklist item at index " ++ toString i ++ " must have a text property")
    else if !itemCompletedOk item.completed then
      .error ("Checklist item at index " ++ toString i ++ " must have a boolean completed property")
    else
      validateItems (i + 1) rest

/-- A stored checklist item of a constructed Task (Task.js lines
61-65: generated-or-kept id, trimmed text, boolean completed). -/
structure ChecklistItem where
  id : JSPrim
  text : String
  completed : Bool
deriving DecidableEq, Repr

/-- The checklist.map of Task.js lines 61-65.  gen models the
uuidv4() supply (item k of the list uses gen k). -/
def buildItems (gen : Nat → String) (k : Nat) : List ChecklistItemData → List ChecklistItem
  | [] => []
  | item :: rest =>
    { id := jsOr item.id (.str (gen k)),
      text := jsTrim (strOf item.text),
      completed := jsTruthy item.completed } :: buildItems gen (k + 1) rest

/-- A constructed Task instance (the fields set by Task.js lines
54-69).  description and notes keep their JavaScript value because the
constructor only applies || and never checks their type. -/
structure ToDo.Task where
  id : JSPrim
  title : String
  description : JSPrim
  dueDate : Option Int
  priority : String
  notes : JSPrim
  checklist : List ChecklistItem
  completed : Bool
  projectId : JSPrim
  createdAt : Int
  updatedAt : Int
deriving DecidableEq, Repr

/-- The Task constructor (Task.js lines 7-70).  gen models the
uuidv4() supply: gen 0 is the id drawn for the task itself, gen (k+1)
the id drawn for checklist item k; now models the current time. -/
def mkTask (gen : Nat → String) (now : Int) (d0 : TaskData) : Except String ToDo.Task :=
  let d := d0.norm
  if !titleOk d.title then
    .error "Task title is required and must be a non-empty string"
  else if !priorityIncluded d.priority then
    .error "Priority must be one of: high, medium, low"
  else if !dueDateOk d.dueDate then
    .error "Due date must be a Date object, ISO string, or null"
  else
    match d.checklist with
    | .other _ => .error "Checklist must be an array"
    | .arr items =>
      match validateItems 0 items with
      | .error e => .error e
      | .ok _ =>
        .ok { id := jsOr d.id (.str (gen 0)),
              title := jsTrim (strOf d.title),
              description := jsOr d.description (.str ""),
              dueDate := if jsTruthy d.dueDate then some (dateFrom d.dueDate) else none,
              priority := strOf d.priority,
              notes := jsOr d.notes (.str ""),
              checklist := buildItems (fun k => gen (k + 1)) 0 items,
              completed := jsTruthy d.completed,
              projectId := jsOr d.projectId (.str "default"),
              createdAt := if jsTruthy d.createdAt then dateFrom d.createdAt else now,
              updatedAt := if jsTruthy d.updatedAt then dateFrom d.updatedAt else now }

/-- The serialized form of one stored checklist item: Task.toJSON
emits the stored items unchanged. -/
def ChecklistItem.toData (it : ChecklistItem) : ChecklistItemData :=
  { id := it.id, text := .str it.text, completed := .bool it.completed }

/-- Task.toJSON (Task.js lines 189-203): dates become ISO strings,
every other field is emitted as stored. -/
def ToDo.Task.toJSON (t : ToDo.Task) : TaskData :=
  { id := t.id,
    title := .str t.title,
    description := t.description,
    dueDate := match t.dueDate with
      | some d => .str (isoString d)
      | none => .null,
    priority := .str t.priority,
    notes := t.notes,
    checklist := .arr (t.checklist.map ChecklistItem.toData),
    completed := .bool t.completed,
    projectId := t.projectId,
    createdAt := .str (isoString t.createdAt),
    updatedAt := .str (isoString t.updatedAt) }

/-- Task.fromJSON (Task.js lines 208-222): every field of the record
is handed to the constructor, except that a falsy checklist value is
replaced by an empty array (data.checklist || []). -/
def ToDo.Task.fromJSON (gen : Nat → String) (now : Int) (d : TaskData) : Except String ToDo.Task :=
  mkTask gen now
    { d with checklist := match d.checklist with
        | .arr items => .arr items
        | .other v => if jsTruthy v then .other v else .arr [] }

/-- The record returned by Task.getChecklistProgress. -/
structure Progress where
  completed : Nat
  total : Nat
  percentage : Nat
deriving DecidableEq, Repr

/-- Math.round((c / t) * 100) for 0 ≤ c ≤ t, computed exactly:
floor(100 c / t + 1/2) = (200 c + t) / (2 t) in natural division.
(JavaScript computes the quotient in binary floating point; the claims
are stated over the exact value, which is what this models.) -/
def mathRound100 (c t : Nat) : Nat := (200 * c + t) / (2 * t)

/-- Task.getChecklistProgress (Task.js lines 164-174). -/
def ToDo.Task.getChecklistProgress (t : ToDo.Task) : Progress :=
  if t.checklist.length = 0 then
    { completed := 0, total := 0, percentage := 0 }
  else
    let c := (t.checklist.filter (·.completed)).length
    let tot := t.checklist.length
    { completed := c, total := tot, percentage := mathRound100 c tot }

/-! ## TaskService.getTasksByProject (src/modules/services/TaskService.js) -/

/-- TaskService.getTasksByProject (TaskService.js lines 165-175) over
the in-memory task collection: the default project id returns the
whole collection, any other id filters by strict equality on
projectId. -/
def getTasksByProject (tasks : List ToDo.Task) (projectId : String) : List ToDo.Task :=
  if projectId = "default" then tasks
  else tasks.filter (fun t => t.projectId == .str projectId)

/-! ## Storage layer (src/modules/services/StorageService.js) -/

/-- A value held by the store: either a primitive or a stored task
collection (an array of raw task records), the two shapes the claims
exercise.  localStorage holds the JSON rendering and load parses it
back; JSON.stringify / JSON.parse round-trip on these shapes, so the
model keeps values structured on both sides. -/
inductive StoreVal where
  | prim (p : JSPrim)
  | tasks (records : List TaskData)
deriving DecidableEq, Repr

/-- JavaScript truthiness of a stored value (arrays are objects and
always truthy). -/
def StoreVal.truthy : StoreVal → Bool
  | .prim p => jsTruthy p
  | .tasks _ => true

/-- The fixed key namespace (this.prefix = "todoapp_"). -/
def appNs : String := "todoapp_"

/-- Key namespacing of save/load/remove: prepend the namespace unless
the key already carries it. -/
def nsKey (key : String) : String :=
  if strStartsWith key appNs then key else appNs ++ key

/-- Association-list update for the two key-value stores. -/
def setKey (l : List (String × StoreVal)) (k : String) (v : StoreVal) :
    List (String × StoreVal) :=
  (k, v) :: l.filter (fun kv => kv.1 ≠ k)

/-- The mutable state of the StorageService singleton: the availability
flag cached at construction, the two transient flags, and the contents
of the underlying store and of the in-memory fallback map. -/
structure StorageState where
  isAvail : Bool
  quotaEx : Bool
  usingFallback : Bool
  localData : List (String × StoreVal)
  fallbackData : List (String × StoreVal)
deriving DecidableEq, Repr

/-- Outcome of one localStorage.setItem attempt, the external
behaviour the store exhibits: success, a QuotaExceededError, or any
other error. -/
inductive WriteOutcome where
  | ok
  | quota
  | other
deriving DecidableEq, Repr

/-- _switchToFallback (StorageService.js lines 563-574) together with
_migrateToFallback (lines 579-609): sets the sticky fallback flag and
copies every readable namespaced entry of the underlying store into
the fallback map (a no-op when already in fallback mode). -/
def StorageState.switchToFallback (st : StorageState) : StorageState :=
  if st.usingFallback then st
  else
    let migrated := if st.isAvail then st.localData.filter (fun kv => strStartsWith kv.1 appNs) else []
    { st with
      usingFallback := true,
      fallbackData := migrated.foldl (fun acc kv => setKey acc kv.1 kv.2) st.fallbackData }

/-- The final fallback write of save (StorageService.js lines
122-128): Map.set never fails, so this always returns true. -/
def StorageState.fallbackWrite (st : StorageState) (k : String) (v : StoreVal) :
    Bool × StorageState :=
  (true, { st with fallbackData := setKey st.fallbackData k v })

/-- StorageService.save (StorageService.js lines 85-129).  o1 and o2
are the outcomes the underlying store gives the first setItem attempt
and the retry after cleanup; cleanup models _attemptCleanup (lines
614-661), reporting whether anything was evicted and the store
contents after eviction — the claims hold for every eviction policy,
so it is kept as a parameter and quantified in the theorems. -/
def StorageState.save
    (cleanup : List (String × StoreVal) → Bool × List (String × StoreVal))
    (o1 o2 : WriteOutcome) (st : StorageState) (key : String) (v : StoreVal) :
    Bool × StorageState :=
  let k := nsKey key
  if st.isAvail && !st.usingFallback then
    match o1 with
    | .ok =>
      (true, { st with localData := setKey st.localData k v, quotaEx := false })
    | .quota =>
      let st1 := { st with quotaEx := true }
      let freed := cleanup st1.localData
      let st2 := { st1 with localData := freed.2 }
      if freed.1 then
        match o2 with
        | .ok =>
          (true, { st2 with localData := setKey st2.localData k v, quotaEx := false })
        | _ => st2.switchToFallback.fallbackWrite k v
      else
        st2.switchToFallback.fallbackWrite k v
    | .other => st.switchToFallback.fallbackWrite k v
  else
    st.fallbackWrite k v

/-- The read of the fallback map in load: this._fallbackStorage.get
(fullKey) || null, which collapses both a missing key and a stored
falsy value to null. -/
def fbOrNull (r : Option StoreVal) : StoreVal :=
  match r with
  | some v => if v.truthy then v else .prim .null
  | none => .prim .null

/-- StorageService.load (StorageService.js lines 134-160).  In normal
mode a present key parses and is returned as stored (no || null); a
missing key and every fallback-mode read go through the || null of the
fallback map. -/
def StorageState.load (st : StorageState) (key : String) : StoreVal :=
  let k := nsKey key
  if st.isAvail && !st.usingFallback then
    match st.localData.lookup k with
    | some v => v
    | none => fbOrNull (st.fallbackData.lookup k)
  else
    fbOrNull (st.fallbackData.lookup k)

/-- The deserialization loop of StorageService.loadTasks
(StorageService.js lines 264-272): construct each record, push the
successes, log and skip the failures. -/
def deserializeTasks (gen : Nat → String) (now : Int) : List TaskData → List ToDo.Task
  | [] => []
  | r :: rest =>
    match ToDo.Task.fromJSON gen now r with
    | .ok t => t :: deserializeTasks gen now rest
    | .error _ => deserializeTasks gen now rest

/-- StorageService.loadTasks (StorageService.js lines 251-275): load
the tasks key, return [] for a falsy or non-array value, otherwise
deserialize record by record, dropping the ones whose construction
throws. -/
def StorageState.loadTasks (gen : Nat → String) (now : Int) (st : StorageState) :
    List ToDo.Task :=
  match st.load "todoapp_tasks" with
  | .tasks records => deserializeTasks gen now records
  | .prim _ => []

/-! ## Well-formedness predicates and concrete inputs -/

/-- Well-formedness of a stored checklist item, as guaranteed by
addChecklistItem / updateChecklistItem and by every constructor run
whose item texts stay non-empty after trimming: a truthy id and a
non-empty trimmed text. -/
def ChecklistItem.WF (it : ChecklistItem) : Prop :=
  jsTruthy it.id = true ∧ it.text ≠ "" ∧ jsTrim it.text = it.text

instance (it : ChecklistItem) : Decidable it.WF := by
  unfold ChecklistItem.WF
  infer_instance

/-- Well-formedness of a constructed Task: the shape every constructor
output has (truthy id, trimmed non-empty title, priority in the enum,
description and notes truthy-or-empty-string, truthy projectId),
strengthened by the checklist-text condition of the amended C6. -/
def ToDo.Task.WF (t : ToDo.Task) : Prop :=
  jsTruthy t.id = true
  ∧ t.title ≠ ""
  ∧ jsTrim t.title = t.title
  ∧ t.priority ∈ validPriorities
  ∧ (jsTruthy t.description = true ∨ t.description = .str "")
  ∧ (jsTruthy t.notes = true ∨ t.notes = .str "")
  ∧ jsTruthy t.projectId = true
  ∧ ∀ it ∈ t.checklist, it.WF

instance (t : ToDo.Task) : Decidable t.WF := by
  unfold ToDo.Task.WF
  infer_instance

/-- A concrete valid project used by the C1 evidence: name "A",
task count 0. -/
def projA : Project := { id := .str "p1", name := "A", createdAt := 0, taskCount := 0 }

/-- A concrete task living in project "work", used as witness input. -/
def taskW : ToDo.Task :=
  { id := .str "t1", title := "Ship", description := .str "", dueDate := none,
    priority := "high", notes := .str "", checklist := [], completed := false,
    projectId := .str "work", createdAt := 0, updatedAt := 0 }

/-- A concrete task with three checklist items, one completed. -/
def taskP : ToDo.Task :=
  { taskW with checklist :=
      [{ id := .str "a", text := "x", completed := true },
       { id := .str "b", text := "y", completed := false },
       { id := .str "c", text := "z", completed := false }] }

/-- The no-eviction cleanup outcome, used for concrete runs. -/
def cl0 : List (String × StoreVal) → Bool × List (String × StoreVal) := fun l => (false, l)

/-- A freshly constructed storage service: store available, no flags
set, both stores empty. -/
def st0 : StorageState :=
  { isAvail := true, quotaEx := false, usingFallback := false,
    localData := [], fallbackData := [] }

/-- A fixed uuid supply for concrete runs. -/
def gen0 : Nat → String := fun _ => "u"

/-- A valid stored task record with only a title. -/
def rOK1 : TaskData := { title := .str "Task one" }

/-- A corrupted stored task record: the title is missing. -/
def rBad : TaskData := {}

/-- A second valid stored task record. -/
def rOK2 : TaskData := { title := .str "Task two", completed := .bool true }

/-- A storage state whose tasks key holds two valid records around one
title-less record. -/
def stTasks : StorageState :=
  { isAvail := true, quotaEx := false, usingFallback := false,
    localData := [("todoapp_tasks", .tasks [rOK1, rBad, rOK2])],
    fallbackData := [] }

/-- A constructor input the constructor accepts whose checklist item
text is whitespace only (truthy and a string, so it validates; the
stored text then trims to the empty string). -/
def dWs : TaskData :=
  { title := .str "Valid title",
    checklist := .arr [{ id := .str "i1", text := .str " ", completed := .bool false }] }

/-- A concrete well-formed task exercising every field. -/
def taskR : ToDo.Task :=
  { id := .str "t9", title := "Write spec", description := .str "d", dueDate := some 5,
    priority := "low", notes := .str "",
    checklist := [{ id := .str "c1", text := "step", completed := true }],
    completed := false, projectId := .str "default", createdAt := 3, updatedAt := 4 }

/-! ## Helper lemmas -/

theorem jsOr_of_truthy {v : JSPrim} (h : jsTruthy v = true) (w : JSPrim) : jsOr v w = v := by
  simp [jsOr, h]

theorem truthy_ne_undef {v : JSPrim} (h : jsTruthy v = true) : v ≠ .undef := by
  intro e
  subst e
  simp [jsTruthy] at h

theorem defUndef_of_truthy {v : JSPrim} (h : jsTruthy v = true) (d : JSPrim) :
    defUndef v d = v := by
  simp [defUndef, truthy_ne_undef h]

theorem replicate_all_i (n : Nat) :
    (List.replicate n 'i').all (fun c => c = 'i') = true := by
  induction n with
  | zero => rfl
  | succ n ih => simp [List.replicate, ih]

theorem parse_isoString (t : Int) : parseDateStr (isoString t) = some t := by
  unfold isoString parseDateStr
  by_cases h : t < 0
  · have ha : ((t.natAbs : Int)) = -t := by omega
    simp [if_pos h, replicate_all_i, ha]
  · have ha : ((t.natAbs : Int)) = t := by omega
    simp [if_neg h, replicate_all_i, ha]

theorem isoString_ne_empty (t : Int) : isoString t ≠ "" := by
  intro h
  have hd := congrArg String.data h
  unfold isoString at hd
  by_cases ht : t < 0 <;> simp [ht] at hd

theorem isoString_truthy (t : Int) : jsTruthy (.str (isoString t)) = true := by
  simp [jsTruthy, isoString_ne_empty t]

/-! ## Claim theorems -/

/-- C8: for every project-repository state, deleteProject on the id
"default" is rejected with the reserved-project error and the
in-memory project collection is returned unchanged. -/
theorem deleteProject_default_always_rejected (projects : List Project) :
    deleteProject projects "default" =
      (.error "Cannot delete the default project", projects) := rfl

/-- C1 (failing evaluation): a partial update of a valid Project with
a valid new name and an invalid task count throws the task-count
validation error, yet leaves the instance with the new name committed:
the original is modified by a failed update, contradicting the
atomic-update contract (Task.update builds a trial instance first and
is atomic; Project.update assigns name before validating taskCount). -/
theorem project_update_mutates_despite_throw :
    Project.update projA { name := some (.str "B"), taskCount := some (.num (-1)) } =
      (.error "Task count must be a non-negative number", { projA with name := "B" })
    ∧ ({ projA with name := "B" } : Project).name ≠ projA.name := by
  constructor
  · rfl
  · decide

/-- C9: every Project operation keeps taskCount non-negative: the
constructor only succeeds with a non-negative count and rejects every
negative numeric count (with the name error when the name is also bad,
the count error otherwise); setTaskCount likewise; incrementTaskCount
adds one; decrementTaskCount at zero leaves zero and never goes
negative. -/
theorem project_taskCount_invariant :
    (∀ d freshId now p, mkProject d freshId now = .ok p → 0 ≤ p.taskCount)
    ∧ (∀ d freshId now n, d.taskCount = .num n → n < 0 →
        mkProject d freshId now = .error "Project name is required and must be a non-empty string"
        ∨ mkProject d freshId now = .error "Task count must be a non-negative number")
    ∧ (∀ p n, n < 0 →
        Project.setTaskCount p (.num n) = .error "Task count must be a non-negative number")
    ∧ (∀ p c q, Project.setTaskCount p c = .ok q → 0 ≤ q.taskCount)
    ∧ (∀ p : Project, p.incrementTaskCount.taskCount = p.taskCount + 1)
    ∧ (∀ p : Project, 0 ≤ p.taskCount → 0 ≤ p.decrementTaskCount.taskCount)
    ∧ (∀ p : Project, p.taskCount = 0 → p.decrementTaskCount.taskCount = 0) := by
  refine ⟨?_, ?_, ?_, ?_, ?_, ?_, ?_⟩
  · intro d freshId now p h
    unfold mkProject at h
    split at h
    · cases h
    · split at h
      · cases h
      · cases h
        next h2 =>
        cases hc : d.taskCount <;> simp [taskCountOk, hc] at h2
        simpa [intOf, hc] using h2
  · intro d freshId now n hc hn
    unfold mkProject
    split
    · left; rfl
    · right
      rw [if_pos]
      simp [taskCountOk, hc]
      omega
  · intro p n hn
    unfold Project.setTaskCount
    rw [if_pos]
    simp [taskCountOk]
    omega
  · intro p c q h
    unfold Project.setTaskCount at h
    split at h
    · cases h
    · cases h
      next h2 =>
      cases hc : c <;> simp [taskCountOk, hc] at h2
      simpa [intOf, hc] using h2
  · intro p
    rfl
  · intro p h
    unfold Project.decrementTaskCount
    split
    · show 0 ≤ p.taskCount - 1
      omega
    · exact h
  · intro p h
    unfold Project.decrementTaskCount
    rw [if_neg (by omega)]
    exact h

/-- C9 witness: the invariant theorem applied at a concrete project
with task count 0: a negative setTaskCount is rejected and a decrement
stays at 0. -/
theorem project_taskCount_invariant_witness :
    Project.setTaskCount projA (.num (-1)) = .error "Task count must be a non-negative number"
    ∧ (Project.decrementTaskCount projA).taskCount = 0 :=
  ⟨project_taskCount_invariant.2.2.1 projA (-1) (by decide),
   project_taskCount_invariant.2.2.2.2.2.2 projA (by decide)⟩

/-- C10: a priority value that is not a string (or is falsy) never
produces a priority error: validatePriority reports valid with the
default value medium and validateTaskData pushes no error for the
field; conversely every invalid result comes from a string whose
lowercased-trimmed form is outside the priority enum. -/
theorem validatePriority_silent_default :
    (∀ v : JSPrim, (∀ s, v ≠ .str s) → priorityMissing v = true)
    ∧ (∀ v, priorityMissing v = true →
        validatePriority v = { valid := true, error := none, value := "medium" }
        ∧ taskDataPriorityStep v = ([], "medium"))
    ∧ (∀ v, (validatePriority v).valid = false →
        ∃ s, v = .str s ∧ jsTrim (jsToLower s) ∉ validPriorities)
    ∧ (∀ v, (validatePriority v).valid = true → (taskDataPriorityStep v).1 = []) := by
  refine ⟨?_, ?_, ?_, ?_⟩
  · intro v h
    cases v
    case str s => exact absurd rfl (h s)
    all_goals simp [priorityMissing, jsTruthy]
  · intro v h
    constructor
    · simp [validatePriority, h]
    · simp [taskDataPriorityStep, validatePriority, h]
  · intro v h
    unfold validatePriority at h
    by_cases hm : priorityMissing v = true
    · rw [if_pos hm] at h
      simp at h
    · rw [if_neg hm] at h
      cases v
      case neg.str s =>
        refine ⟨s, rfl, ?_⟩
        by_cases hmem : jsTrim (jsToLower s) ∈ validPriorities
        · simp [strOf, hmem] at h
        · exact hmem
      all_goals simp [priorityMissing, jsTruthy] at hm
  · intro v h
    simp [taskDataPriorityStep, h]

/-- C10 witness: the theorem applied at the numeric priority 5 (not a
string): no error, value defaults to medium. -/
theorem validatePriority_silent_default_witness :
    validatePriority (.num 5) = { valid := true, error := none, value := "medium" }
    ∧ taskDataPriorityStep (.num 5) = ([], "medium") :=
  validatePriority_silent_default.2.1 (.num 5) (by decide)

/-- C4: getTasksByProject with the reserved id "default" returns the
whole in-memory collection (every task is included no matter its
projectId); any other id returns exactly the tasks whose projectId
strictly equals it. -/
theorem getTasksByProject_master_view (tasks : List ToDo.Task) (pid : String) :
    getTasksByProject tasks "default" = tasks
    ∧ (∀ t ∈ tasks, t ∈ getTasksByProject tasks "default")
    ∧ (pid ≠ "default" →
        getTasksByProject tasks pid = tasks.filter (fun t => t.projectId == .str pid)) := by
  refine ⟨rfl, ?_, ?_⟩
  · intro t ht
    simpa [getTasksByProject] using ht
  · intro h
    simp [getTasksByProject, h]

/-- C4 witness: the theorem applied to a one-task collection whose
task lives in project "work": the default view returns it, the view of
the unrelated project "other" is empty. -/
theorem getTasksByProject_master_view_witness :
    getTasksByProject [taskW] "default" = [taskW]
    ∧ getTasksByProject [taskW] "other" = [] :=
  ⟨(getTasksByProject_master_view [taskW] "other").1,
   by
     have h := (getTasksByProject_master_view [taskW] "other").2.2 (by decide)
     rw [h]
     decide⟩

theorem mathRound100_le (c t : Nat) (hct : c ≤ t) (ht : 0 < t) : mathRound100 c t ≤ 100 := by
  unfold mathRound100
  have h := (Nat.div_lt_iff_lt_mul (k := 2 * t) (by omega)).mpr
    (show 200 * c + t < 101 * (2 * t) by omega)
  omega

theorem mathRound100_round (c t : Nat) (ht : 0 < t) :
    ((mathRound100 c t : ℤ)) = round ((c : ℚ) * 100 / t) := by
  have htq : ((t : ℚ)) ≠ 0 := Nat.cast_ne_zero.mpr (by omega)
  rw [round_eq]
  have heq : (c : ℚ) * 100 / t + 1 / 2 = ((200 * c + t : ℕ) : ℚ) / ((2 * t : ℕ) : ℚ) := by
    push_cast
    field_simp
    ring
  rw [heq, Rat.floor_natCast_div_natCast]
  unfold mathRound100
  norm_cast

/-- C7: for every task, getChecklistProgress reports completed ≤
total, a percentage within [0,100] (it is a natural number, so the
lower bound is inherent), percentage 0 when the checklist is empty,
and otherwise exactly the half-up rounding of 100·completed/total. -/
theorem getChecklistProgress_spec (t : ToDo.Task) :
    (t.getChecklistProgress).completed ≤ (t.getChecklistProgress).total
    ∧ (t.getChecklistProgress).percentage ≤ 100
    ∧ ((t.getChecklistProgress).total = 0 → (t.getChecklistProgress).percentage = 0)
    ∧ (0 < (t.getChecklistProgress).total →
        (((t.getChecklistProgress).percentage : ℤ)) =
          round ((((t.getChecklistProgress).completed : ℚ)) * 100 /
            ((t.getChecklistProgress).total : ℚ))) := by
  unfold ToDo.Task.getChecklistProgress
  by_cases h0 : t.checklist.length = 0
  · simp [h0]
  · have hct : (t.checklist.filter (·.completed)).length ≤ t.checklist.length :=
      List.length_filter_le _ _
    simp only [if_neg h0]
    refine ⟨hct, ?_, ?_, ?_⟩
    · exact mathRound100_le _ _ hct (by omega)
    · intro h
      exact absurd h h0
    · intro _
      exact mathRound100_round _ _ (by omega)

/-- C7 witness: the theorem applied to a task with 1 of 3 items done:
the percentage is 33, the exact rounding of 100/3. -/
theorem getChecklistProgress_spec_witness :
    (taskP.getChecklistProgress).percentage = 33
    ∧ (((taskP.getChecklistProgress).percentage : ℤ)) =
        round ((((taskP.getChecklistProgress).completed : ℚ)) * 100 /
          ((taskP.getChecklistProgress).total : ℚ)) :=
  ⟨by decide, (getChecklistProgress_spec taskP).2.2.2 (by decide)⟩

theorem lookup_setKey_self (l : List (String × StoreVal)) (k : String) (v : StoreVal) :
    (setKey l k v).lookup k = some v := by
  simp [setKey, List.lookup]

theorem switchToFallback_flags (st : StorageState) :
    st.switchToFallback.usingFallback = true
    ∧ st.switchToFallback.quotaEx = st.quotaEx
    ∧ st.switchToFallback.isAvail = st.isAvail := by
  unfold StorageState.switchToFallback
  by_cases h : st.usingFallback = true <;> simp [h]

theorem save_quota_quota_eq
    (cleanup : List (String × StoreVal) → Bool × List (String × StoreVal))
    (st : StorageState) (key : String) (v : StoreVal) :
    st.save cleanup .quota .quota key v =
      if (st.isAvail && !st.usingFallback) = true then
        StorageState.fallbackWrite
          (StorageState.switchToFallback
            { st with quotaEx := true, localData := (cleanup st.localData).2 })
          (nsKey key) v
      else st.fallbackWrite (nsKey key) v := by
  unfold StorageState.save
  by_cases hb : (st.isAvail && !st.usingFallback) = true
  · simp only [hb, if_true]
    split <;> rfl
  · simp only [hb, Bool.false_eq_true, if_false]

theorem load_via_fallback (st : StorageState) (key : String)
    (h : (st.isAvail && !st.usingFallback) = false) :
    st.load key = fbOrNull (st.fallbackData.lookup (nsKey key)) := by
  unfold StorageState.load
  simp [h]

/-- C2 (amended): when the underlying store throws a quota error on
every setItem attempt (first try and retry), save still returns true
for every key, value and eviction outcome, and a subsequent load of
the same key returns the just-saved value provided the value is
truthy — the fallback read path applies || null, so a falsy saved
value (false, 0, the empty string, null) loads back as null. -/
theorem save_quota_fallback
    (cleanup : List (String × StoreVal) → Bool × List (String × StoreVal))
    (st : StorageState) (key : String) (v : StoreVal) :
    (st.save cleanup .quota .quota key v).1 = true
    ∧ (v.truthy = true →
        ((st.save cleanup .quota .quota key v).2).load key = v) := by
  rw [save_quota_quota_eq]
  by_cases hb : (st.isAvail && !st.usingFallback) = true
  · rw [if_pos hb]
    refine ⟨rfl, fun hv => ?_⟩
    rw [load_via_fallback]
    · show fbOrNull ((setKey _ (nsKey key) v).lookup (nsKey key)) = v
      rw [lookup_setKey_self]
      simp [fbOrNull, hv]
    · show (_ && !(StorageState.switchToFallback _).usingFallback) = false
      rw [(switchToFallback_flags _).1]
      simp
  · rw [if_neg hb]
    refine ⟨rfl, fun hv => ?_⟩
    rw [load_via_fallback]
    · show fbOrNull ((setKey _ (nsKey key) v).lookup (nsKey key)) = v
      rw [lookup_setKey_self]
      simp [fbOrNull, hv]
    · simpa using hb

/-- C2 counterexample: saving the serializable value false while every
write throws quota returns true, but loading the key back gives null,
not the just-saved value — the claim fails for falsy values. -/
theorem save_falsy_value_loads_null :
    (st0.save cl0 .quota .quota "test" (.prim (.bool false))).1 = true
    ∧ ((st0.save cl0 .quota .quota "test" (.prim (.bool false))).2).load "test" = .prim .null
    ∧ (StoreVal.prim .null) ≠ .prim (.bool false) :=
  ⟨rfl, rfl, by decide⟩

/-- C2 witness: the amended theorem applied to a truthy value on the
fresh service: save returns true and load returns the value. -/
theorem save_quota_fallback_witness :
    (st0.save cl0 .quota .quota "test" (.prim (.str "x"))).1 = true
    ∧ ((st0.save cl0 .quota .quota "test" (.prim (.str "x"))).2).load "test" = .prim (.str "x") :=
  ⟨(save_quota_fallback cl0 st0 "test" (.prim (.str "x"))).1,
   (save_quota_fallback cl0 st0 "test" (.prim (.str "x"))).2 (by decide)⟩

/-- C5 (amended): isQuotaExceeded is cleared by a save that actually
writes to the underlying store (a direct success, or a successful
retry after an eviction), but a save that returns true by falling back
to the in-memory map leaves the flag set, and once in fallback mode
every save returns true without touching the flag — so the flag is not
cleared by every save that returns true, only by store writes. -/
theorem quota_flag_cleared_only_by_store_write
    (cleanup : List (String × StoreVal) → Bool × List (String × StoreVal))
    (o1 o2 : WriteOutcome) (st : StorageState) (key : String) (v : StoreVal)
    (hA : st.isAvail = true) (hF : st.usingFallback = false) :
    ((st.save cleanup .ok o2 key v).1 = true
      ∧ (st.save cleanup .ok o2 key v).2.quotaEx = false)
    ∧ ((cleanup st.localData).1 = true →
        (st.save cleanup .quota .ok key v).1 = true
        ∧ (st.save cleanup .quota .ok key v).2.quotaEx = false)
    ∧ ((st.save cleanup .quota .quota key v).1 = true
        ∧ (st.save cleanup .quota .quota key v).2.quotaEx = true)
    ∧ (∀ st2 : StorageState, st2.usingFallback = true →
        (st2.save cleanup o1 o2 key v).1 = true
        ∧ (st2.save cleanup o1 o2 key v).2.quotaEx = st2.quotaEx) := by
  have hb : (st.isAvail && !st.usingFallback) = true := by simp [hA, hF]
  refine ⟨?_, ?_, ?_, ?_⟩
  · unfold StorageState.save
    simp only [hb, if_true]
    exact ⟨trivial, trivial⟩
  · intro hcl
    unfold StorageState.save
    simp only [hb, if_true]
    show ((if (cleanup st.localData).1 = true then _ else _) : Bool × StorageState).1 = true ∧ _
    rw [if_pos hcl]
    exact ⟨rfl, rfl⟩
  · rw [save_quota_quota_eq, if_pos hb]
    refine ⟨rfl, ?_⟩
    show (StorageState.switchToFallback _).quotaEx = true
    rw [(switchToFallback_flags _).2.1]
  · intro st2 h2
    have hb2 : (st2.isAvail && !st2.usingFallback) = false := by simp [h2]
    unfold StorageState.save
    simp only [hb2, Bool.false_eq_true, if_false]
    exact ⟨rfl, rfl⟩

/-- C5 counterexample: on a fresh service whose store throws quota on
both write attempts, save returns true (the data lands in the
fallback map) yet isQuotaExceeded stays true afterwards — a save call
that returns true does not clear the flag. -/
theorem quota_flag_survives_true_save :
    (st0.save cl0 .quota .quota "test" (.prim (.str "x"))).1 = true
    ∧ (st0.save cl0 .quota .quota "test" (.prim (.str "x"))).2.quotaEx = true :=
  ⟨rfl, rfl⟩

/-- C5 witness: the amended theorem applied to the fresh service with
a succeeding store write: save returns true and the flag is clear. -/
theorem quota_flag_cleared_witness :
    (st0.save cl0 .ok .ok "test" (.prim (.str "x"))).1 = true
    ∧ (st0.save cl0 .ok .ok "test" (.prim (.str "x"))).2.quotaEx = false :=
  (quota_flag_cleared_only_by_store_write cl0 .ok .ok st0 "test" (.prim (.str "x")) rfl rfl).1

theorem deserializeTasks_eq_filterMap (gen : Nat → String) (now : Int) (l : List TaskData) :
    deserializeTasks gen now l =
      l.filterMap (fun r => (ToDo.Task.fromJSON gen now r).toOption) := by
  induction l with
  | nil => rfl
  | cons r rest ih =>
    unfold deserializeTasks
    cases h : ToDo.Task.fromJSON gen now r <;>
      simp [h, ih, Except.toOption]

/-- C3: loadTasks returns exactly the records whose construction
succeeds, in order, dropping each record whose constructor throws
(loadTasks itself never throws: it is a total function of the stored
value); on the concrete collection of two valid records around one
title-less record it yields exactly 2 tasks, and the dropped record is
the title-less one. -/
theorem loadTasks_drops_corrupt :
    (∀ (gen : Nat → String) (now : Int) (st : StorageState) (records : List TaskData),
      st.load "todoapp_tasks" = .tasks records →
      st.loadTasks gen now =
        records.filterMap (fun r => (ToDo.Task.fromJSON gen now r).toOption))
    ∧ (stTasks.loadTasks gen0 0).length = 2
    ∧ (ToDo.Task.fromJSON gen0 0 rBad).isOk = false
    ∧ (ToDo.Task.fromJSON gen0 0 rOK1).isOk = true
    ∧ (ToDo.Task.fromJSON gen0 0 rOK2).isOk = true := by
  refine ⟨?_, by decide, by decide, by decide, by decide⟩
  intro gen now st records h
  unfold StorageState.loadTasks
  rw [h]
  exact deserializeTasks_eq_filterMap gen now records

/-- C3 witness: the theorem applied to the concrete storage state
holding [valid, title-less, valid]. -/
theorem loadTasks_drops_corrupt_witness :
    stTasks.loadTasks gen0 0 =
      [rOK1, rBad, rOK2].filterMap (fun r => (ToDo.Task.fromJSON gen0 0 r).toOption) :=
  loadTasks_drops_corrupt.1 gen0 0 stTasks [rOK1, rBad, rOK2] (by rfl)

theorem validateItems_of_WF (l : List ChecklistItem) (h : ∀ it ∈ l, it.WF) (i : Nat) :
    validateItems i (l.map ChecklistItem.toData) = .ok () := by
  induction l generalizing i with
  | nil => rfl
  | cons x xs ih =>
    obtain ⟨h1, h2, h3⟩ := h x (by simp)
    unfold validateItems
    simp only [List.map_cons]
    rw [if_neg, if_neg]
    · exact ih (fun it hit => h it (by simp [hit])) (i + 1)
    · simp [itemCompletedOk, ChecklistItem.toData]
    · simp [itemTextOk, ChecklistItem.toData, h2]

theorem jsTruthy_bool (b : Bool) : jsTruthy (.bool b) = b := rfl

theorem jsTruthy_null_eq : jsTruthy .null = false := rfl

theorem jsTruthy_str (s : String) : jsTruthy (.str s) = (s != "") := rfl

theorem jsOr_str_empty {v : JSPrim} (h : jsTruthy v = true ∨ v = .str "") :
    jsOr v (.str "") = v := by
  rcases h with h | h
  · exact jsOr_of_truthy h _
  · rw [h]
    rfl

theorem buildItems_of_WF (gen : Nat → String) (l : List ChecklistItem)
    (h : ∀ it ∈ l, it.WF) (k : Nat) :
    buildItems gen k (l.map ChecklistItem.toData) = l := by
  induction l generalizing k with
  | nil => rfl
  | cons x xs ih =>
    obtain ⟨h1, h2, h3⟩ := h x (by simp)
    unfold buildItems
    simp only [List.map_cons]
    congr 1
    · cases x with
      | mk xid xtext xcomp =>
        dsimp only at h1 h2 h3
        simp [ChecklistItem.toData, jsOr, h1, strOf, h3, jsTruthy_bool]
    · exact ih (fun it hit => h it (by simp [hit])) (k + 1)

/-- C6 (amended): for every well-formed task instance — the shape the
constructor produces, with the extra condition that every checklist
item text is non-empty after trimming — fromJSON of toJSON rebuilds an
instance equal in every field.  (Without the extra condition the round
trip can throw: see the counterexample.) -/
theorem task_toJSON_fromJSON_roundtrip (gen : Nat → String) (now : Int) (t : ToDo.Task)
    (h : t.WF) : ToDo.Task.fromJSON gen now t.toJSON = .ok t := by
  obtain ⟨tid, ttl, tds, tdu, tpr, tno, tck, tcp, tpj, tca, tup⟩ := t
  obtain ⟨hid, hti, htt, hpr, hde, hno, hpj, hcl⟩ := h
  dsimp only at hid hti htt hpr hde hno hpj hcl
  have hvi := validateItems_of_WF tck hcl 0
  have hbi := buildItems_of_WF (fun k => gen (k + 1)) tck hcl 0
  have hidne := truthy_ne_undef hid
  have hpjne := truthy_ne_undef hpj
  have hdne : tds ≠ .undef := by
    rcases hde with h1 | h1
    · exact truthy_ne_undef h1
    · rw [h1]
      decide
  have hnne : tno ≠ .undef := by
    rcases hno with h1 | h1
    · exact truthy_ne_undef h1
    · rw [h1]
      decide
  have hdor := jsOr_str_empty hde
  have hnor := jsOr_str_empty hno
  have hidor := jsOr_of_truthy hid (.str (gen 0))
  have hpjor := jsOr_of_truthy hpj (.str "default")
  unfold ToDo.Task.fromJSON ToDo.Task.toJSON mkTask TaskData.norm
  cases tdu with
  | none =>
    simp [defUndef, hidne, hpjne, hdne, hnne, hdor, hnor, hidor, hpjor,
      titleOk, jsTruthy_str, bne_iff_ne, hti, htt, hpr, priorityIncluded,
      dueDateOk, strOf, hvi, hbi, isoString_truthy, dateFrom, parse_isoString,
      jsTruthy_bool, jsTruthy_null_eq, isoString_ne_empty]
  | some x =>
    simp [defUndef, hidne, hpjne, hdne, hnne, hdor, hnor, hidor, hpjor,
      titleOk, jsTruthy_str, bne_iff_ne, hti, htt, hpr, priorityIncluded,
      dueDateOk, strOf, hvi, hbi, isoString_truthy, dateFrom, parse_isoString,
      jsTruthy_bool, jsTruthy_null_eq, isoString_ne_empty]

/-- C6 counterexample: a valid task input (the constructor accepts it)
whose round trip throws: the constructor stores the whitespace-only
item text trimmed to "", and fromJSON of toJSON then rejects that item
— so fromJSON(task.toJSON()) does not reproduce every valid task. -/
theorem task_roundtrip_fails_on_whitespace_item :
    (mkTask gen0 0 dWs).isOk = true
    ∧ (match mkTask gen0 0 dWs with
        | .ok t => ToDo.Task.fromJSON gen0 0 t.toJSON
        | .error e => .error e) =
      .error "Checklist item at index 0 must have a text property" :=
  ⟨rfl, rfl⟩

/-- C6 witness: the amended round-trip theorem applied to a concrete
well-formed task. -/
theorem task_toJSON_fromJSON_roundtrip_witness :
    ToDo.Task.fromJSON gen0 7 taskR.toJSON = .ok taskR :=
  task_toJSON_fromJSON_roundtrip gen0 7 taskR (by decide)
